import Mathlib

/-!
FingerViewer multi-touch decoder: shallow embedding and verification.

This file embeds the event-decoding state machine of `fingerviewer.py`
(`MouseDevice.receive` and its state fields `slot`, `slots`, `tid`, `tids`)
into Lean and proves properties about it.

Correspondence with the source:
* `MouseState` embeds the mutable fields of `MouseDevice`
  (`slot` = current slot, `tid` = current tracking ID,
  `slots : slot → tracking ID` — the spec's `slotToTrackingID`,
  `tids : tracking ID → [x, y, pressure]` — the spec's `contacts`).
* Python dicts become insertion-ordered association lists with the
  operations `alookup` (`d[k]` read), `aupdate` (`d[k] = v`),
  `aerase` (`del d[k]`), `setdefault` (`d.setdefault(k, v)`) and
  `acontains` (`k in d`).
* `receive` embeds `MouseDevice.receive`.  A Python `KeyError`
  (unguarded `self.tids[self.tid][0] = evalue` and
  `del self.tids[self.tid]`) becomes `Except.error ()`; note that in
  the source both failing operations raise before any state mutation,
  so the error case carries no partially-updated state.
* A call `viewer.update_finger(i, pos[0], pos[1], 0, 0, pos[2])`
  becomes a `Finger` record; the batch of calls made on `SYN_REPORT`
  becomes the `snapshot` field of `ReceiveOutput`.  The diagnostic
  print `"tracking ID %d is already gone"` becomes the `diag` flag.
* `process` embeds feeding a list of events in order, collecting the
  snapshot emitted at each `SYN_REPORT`; a raised `KeyError` stops
  processing (the reader thread dies), so `process` returns the
  snapshots emitted so far and `none` in place of a final state.
-/

namespace FingerViewer

/-- Event type constants from `include/uapi/linux/input-event-codes.h`. -/
def EV_SYN : Int := 0x00

def EV_KEY : Int := 0x01

def EV_REL : Int := 0x02

def EV_ABS : Int := 0x03

def SYN_REPORT : Int := 0

def SYN_CONFIG : Int := 1

def SYN_MT_REPORT : Int := 2

def SYN_DROPPED : Int := 3

def ABS_PRESSURE : Int := 0x18

def ABS_TILT_X : Int := 0x1a

def ABS_MT_SLOT : Int := 0x2f

def ABS_MT_POSITION_X : Int := 0x35

def ABS_MT_POSITION_Y : Int := 0x36

def ABS_MT_TRACKING_ID : Int := 0x39

/-- A raw input event: the `(event.etype, event.ecode, event.evalue)`
triple consumed by `MouseDevice.receive`. -/
structure RawEvent where
  etype : Int
  ecode : Int
  evalue : Int
deriving Repr, DecidableEq

/-- A contact record: the `[x, y, pressure]` list stored in `self.tids`. -/
structure Contact where
  x : Int
  y : Int
  pressure : Int
deriving Repr, DecidableEq

/-- Insertion-ordered association list, the embedding of a Python dict. -/
abbrev AList (α : Type) := List (Int × α)

variable {α : Type}

/-- Dict read `d[k]`: first (and, for dicts, only) value stored at key `k`. -/
def alookup (k : Int) : AList α → Option α
  | [] => none
  | (k₁, v₁) :: rest => if k₁ = k then some v₁ else alookup k rest

/-- Dict membership test `k in d`. -/
def acontains (k : Int) (m : AList α) : Bool :=
  (alookup k m).isSome

/-- Dict assignment `d[k] = v`: overwrite in place if the key is present
(keeping its position), otherwise append at the end — Python dicts keep
insertion order. -/
def aupdate (k : Int) (v : α) : AList α → AList α
  | [] => [(k, v)]
  | (k₁, v₁) :: rest =>
    if k₁ = k then (k₁, v) :: rest else (k₁, v₁) :: aupdate k v rest

/-- Dict deletion `del d[k]` (for a present key): drop the entry at `k`. -/
def aerase (k : Int) : AList α → AList α
  | [] => []
  | (k₁, v₁) :: rest =>
    if k₁ = k then aerase k rest else (k₁, v₁) :: aerase k rest

/-- Embedding of `d.setdefault(k, v)`: insert-if-absent, no effect on a
present key. -/
def setdefault (k : Int) (v : α) (m : AList α) : AList α :=
  if acontains k m then m else aupdate k v m

/-- The mutable decoding state of `MouseDevice`:
`num` (unused by protocol B), the current slot `self.slot`, the current
tracking ID `self.tid`, the map `self.slots` from slot to tracking ID
(the spec's `slotToTrackingID`) and the map `self.tids` from tracking ID
to contact (the spec's `contacts`). -/
structure MouseState where
  num : Int
  slot : Int
  tid : Int
  slots : AList Int
  tids : AList Contact
deriving Repr, DecidableEq

/-- The state set up by `MouseDevice.__init__`. -/
def initState : MouseState :=
  { num := 0, slot := 0, tid := 0, slots := [], tids := [] }

/-- One argument tuple of `viewer.update_finger(i, x, y, dx, dy, p)`. -/
structure Finger where
  num : Int
  x : Int
  y : Int
  dx : Int
  dy : Int
  p : Int
deriving Repr, DecidableEq

/-- The snapshot emitted on `SYN_REPORT`: one `update_finger` call per
`(i, pos)` entry of `self.tids`, in dict iteration (insertion) order. -/
def snapshotOf (tids : AList Contact) : List Finger :=
  tids.map (fun p => { num := p.1, x := p.2.x, y := p.2.y, dx := 0, dy := 0, p := p.2.pressure })

/-- Observable output of one `receive` call: the snapshot sent to the
viewer if the event was a `SYN_REPORT`, and whether the diagnostic
`"tracking ID %d is already gone"` was printed. -/
structure ReceiveOutput where
  snapshot : Option (List Finger)
  diag : Bool
deriving Repr, DecidableEq

/-- The output of a `receive` call that neither reports nor diagnoses. -/
def noOutput : ReceiveOutput :=
  { snapshot := none, diag := false }

/-- Embedding of `MouseDevice.receive` (fingerviewer.py lines 100-135).
`Except.error ()` is a raised `KeyError`; both raising statements
(`self.tids[self.tid][0] = evalue` / `[1]`, and `del self.tids[self.tid]`)
fail before mutating anything, so no state accompanies the error. -/
def receive (s : MouseState) (event : RawEvent) : Except Unit (MouseState × ReceiveOutput) :=
  if event.etype = EV_ABS then
    if event.ecode = ABS_MT_POSITION_X then
      match alookup s.tid s.tids with
      | some c => .ok ({ s with tids := aupdate s.tid { c with x := event.evalue } s.tids }, noOutput)
      | none => .error ()
    else if event.ecode = ABS_MT_POSITION_Y then
      match alookup s.tid s.tids with
      | some c => .ok ({ s with tids := aupdate s.tid { c with y := event.evalue } s.tids }, noOutput)
      | none => .error ()
    else if event.ecode = ABS_PRESSURE then
      if event.evalue = 0 then
        .ok (s, noOutput)
      else
        match alookup s.tid s.tids with
        | some c => .ok ({ s with tids := aupdate s.tid { c with pressure := event.evalue } s.tids }, noOutput)
        | none => .ok (s, { snapshot := none, diag := true })
    else if event.ecode = ABS_MT_SLOT then
      match alookup event.evalue s.slots with
      | some t => .ok ({ s with slot := event.evalue, tid := t }, noOutput)
      | none => .ok ({ s with slot := event.evalue }, noOutput)
    else if event.ecode = ABS_MT_TRACKING_ID then
      if event.evalue = -1 then
        if acontains s.tid s.tids then
          .ok ({ s with tids := aerase s.tid s.tids, slots := aerase s.slot s.slots }, noOutput)
        else
          .error ()
      else
        .ok ({ s with tid := event.evalue,
                      slots := aupdate s.slot event.evalue s.slots,
                      tids := setdefault event.evalue { x := 0, y := 0, pressure := 0 } s.tids },
             noOutput)
    else
      .ok (s, noOutput)
  else if event.etype = EV_SYN then
    if event.ecode = SYN_REPORT then
      .ok (s, { snapshot := some (snapshotOf s.tids), diag := false })
    else
      .ok (s, noOutput)
  else
    .ok (s, noOutput)

/-- Feed a list of events in order, collecting every snapshot emitted.
A raised `KeyError` aborts processing: the snapshots emitted so far are
kept and the final state is `none`. -/
def process (s : MouseState) : List RawEvent → List (List Finger) × Option MouseState
  | [] => ([], some s)
  | event :: rest =>
    match receive s event with
    | .error _ => ([], none)
    | .ok (s₁, out) =>
      let r := process s₁ rest
      (out.snapshot.toList ++ r.1, r.2)

/-- The consistency property of the spec: every tracking ID stored as a
value of `slots` (= `slotToTrackingID`) has an entry in `tids`
(= `contacts`). -/
def slotsConsistent (s : MouseState) : Bool :=
  s.slots.all (fun p => acontains p.2 s.tids)

/-- The `(type, code)` pairs that `receive` dispatches on; every other
pair falls through to the implicit no-op arm. -/
def handledPair (event : RawEvent) : Prop :=
  (event.etype = EV_ABS ∧
    (event.ecode = ABS_MT_POSITION_X ∨ event.ecode = ABS_MT_POSITION_Y ∨
     event.ecode = ABS_PRESSURE ∨ event.ecode = ABS_MT_SLOT ∨
     event.ecode = ABS_MT_TRACKING_ID)) ∨
  (event.etype = EV_SYN ∧ event.ecode = SYN_REPORT)

instance (event : RawEvent) : Decidable (handledPair event) := by
  unfold handledPair
  exact inferInstance

/-- The state produced by lifting tracking ID 1 at slot 0 and then
re-establishing slot 0 with fresh tracking ID 9 (the slot-reuse scenario). -/
def reuseResult (s : MouseState) : MouseState :=
  { s with slot := 0, tid := 9,
           slots := aupdate 0 9 (aerase 0 s.slots),
           tids := aupdate 9 { x := 0, y := 0, pressure := 0 } (aerase 1 s.tids) }

/-! ## Association-list lemmas -/

theorem alookup_aupdate_self (k : Int) (v : α) (m : AList α) :
    alookup k (aupdate k v m) = some v := by
  induction m with
  | nil => simp [aupdate, alookup]
  | cons p rest ih =>
    obtain ⟨k₁, v₁⟩ := p
    by_cases h : k₁ = k <;> simp [aupdate, alookup, h, ih]

theorem alookup_aupdate_ne {j k : Int} (h : j ≠ k) (v : α) (m : AList α) :
    alookup j (aupdate k v m) = alookup j m := by
  have hkj : ¬(k = j) := fun hk => h hk.symm
  induction m with
  | nil => simp [aupdate, alookup, hkj]
  | cons p rest ih =>
    obtain ⟨k₁, v₁⟩ := p
    by_cases hk : k₁ = k
    · subst hk
      simp [aupdate, alookup, hkj]
    · simp [aupdate, alookup, hk, ih]

theorem alookup_aerase_self (k : Int) (m : AList α) :
    alookup k (aerase k m) = none := by
  induction m with
  | nil => simp [aerase, alookup]
  | cons p rest ih =>
    obtain ⟨k₁, v₁⟩ := p
    by_cases h : k₁ = k <;> simp [aerase, alookup, h, ih]

theorem alookup_aerase_ne {j k : Int} (h : j ≠ k) (m : AList α) :
    alookup j (aerase k m) = alookup j m := by
  have hkj : ¬(k = j) := fun hk => h hk.symm
  induction m with
  | nil => simp [aerase, alookup]
  | cons p rest ih =>
    obtain ⟨k₁, v₁⟩ := p
    by_cases hk : k₁ = k
    · subst hk
      simp [aerase, alookup, hkj, ih]
    · simp [aerase, alookup, hk, ih]

theorem aerase_absent {k : Int} {m : AList α} (h : alookup k m = none) :
    aerase k m = m := by
  induction m with
  | nil => rfl
  | cons p rest ih =>
    obtain ⟨k₁, v₁⟩ := p
    by_cases hk : k₁ = k
    · simp [alookup, hk] at h
    · simp [alookup, hk] at h
      simp [aerase, hk, ih h]

theorem mem_aupdate {p : Int × α} {k : Int} {v : α} {m : AList α}
    (h : p ∈ aupdate k v m) : p = (k, v) ∨ p ∈ m := by
  induction m with
  | nil => simpa [aupdate] using h
  | cons q rest ih =>
    obtain ⟨k₁, v₁⟩ := q
    by_cases hk : k₁ = k
    · subst hk
      rcases (by simpa [aupdate] using h : p = (k₁, v) ∨ p ∈ rest) with h₁ | h₁
      · exact Or.inl h₁
      · exact Or.inr (List.mem_cons_of_mem _ h₁)
    · rcases (by simpa [aupdate, hk] using h : p = (k₁, v₁) ∨ p ∈ aupdate k v rest) with h₁ | h₁
      · exact Or.inr (by simp [h₁])
      · rcases ih h₁ with h₂ | h₂
        · exact Or.inl h₂
        · exact Or.inr (List.mem_cons_of_mem _ h₂)

theorem mem_aerase {p : Int × α} {k : Int} {m : AList α}
    (h : p ∈ aerase k m) : p ∈ m ∧ p.1 ≠ k := by
  induction m with
  | nil => simp [aerase] at h
  | cons q rest ih =>
    obtain ⟨k₁, v₁⟩ := q
    by_cases hk : k₁ = k
    · subst hk
      rcases ih (by simpa [aerase] using h) with ⟨h₁, h₂⟩
      exact ⟨List.mem_cons_of_mem _ h₁, h₂⟩
    · rcases (by simpa [aerase, hk] using h : p = (k₁, v₁) ∨ p ∈ aerase k rest) with h₁ | h₁
      · exact ⟨by simp [h₁], by simp [h₁, hk]⟩
      · rcases ih h₁ with ⟨h₂, h₃⟩
        exact ⟨List.mem_cons_of_mem _ h₂, h₃⟩

theorem acontains_aupdate_of {j : Int} {m : AList α} (k : Int) (v : α)
    (h : acontains j m = true) : acontains j (aupdate k v m) = true := by
  by_cases hj : j = k
  · subst hj
    simp [acontains, alookup_aupdate_self]
  · simpa [acontains, alookup_aupdate_ne hj] using h

theorem acontains_aerase_of_ne {j k : Int} {m : AList α} (hne : j ≠ k)
    (h : acontains j m = true) : acontains j (aerase k m) = true := by
  simpa [acontains, alookup_aerase_ne hne] using h

theorem acontains_setdefault_self (k : Int) (v : α) (m : AList α) :
    acontains k (setdefault k v m) = true := by
  by_cases h : acontains k m = true
  · simp [setdefault, h]
  · simp only [setdefault, h, if_false]
    simp [acontains, alookup_aupdate_self]

theorem acontains_setdefault_of {j : Int} {m : AList α} (k : Int) (v : α)
    (h : acontains j m = true) : acontains j (setdefault k v m) = true := by
  by_cases hc : acontains k m = true
  · simpa [setdefault, hc] using h
  · simp only [setdefault, hc, if_false]
    exact acontains_aupdate_of k v h

theorem setdefault_of_contains {k : Int} {m : AList α} (v : α)
    (h : acontains k m = true) : setdefault k v m = m := by
  simp [setdefault, h]

/-! ## Claim theorems -/

/-- Claim C1, counterexample: at the initial state the current tracking ID
(0) has no entry in `tids`, and feeding an `ABS_MT_POSITION_X` event does
NOT complete normally — `self.tids[self.tid][0] = evalue` raises
`KeyError`, embedded as `Except.error ()`. -/
theorem position_without_contact_raises_ce :
    receive initState { etype := EV_ABS, ecode := ABS_MT_POSITION_X, evalue := 100 } =
      .error () := rfl

/-- Claim C1 (corrected): for every state whose current tracking ID has no
entry in `tids` (= `contacts`), an `ABS_MT_POSITION_X` or
`ABS_MT_POSITION_Y` event makes `receive` raise `KeyError` (the
unguarded `self.tids[self.tid]` subscript), rather than being ignored
silently; the raise happens before any mutation, so no changed state is
ever produced. -/
theorem position_without_contact_raises (s : MouseState) (event : RawEvent)
    (habs : event.etype = EV_ABS)
    (hcode : event.ecode = ABS_MT_POSITION_X ∨ event.ecode = ABS_MT_POSITION_Y)
    (hnone : alookup s.tid s.tids = none) :
    receive s event = .error () := by
  obtain ⟨et, ec, ev⟩ := event
  simp only at habs hcode
  subst habs
  rcases hcode with hc | hc <;> subst hc <;>
    simp [receive, hnone, EV_ABS, ABS_MT_POSITION_X, ABS_MT_POSITION_Y]

/-- Claim C1, witness for the amended theorem at a concrete input. -/
theorem position_without_contact_raises_w :
    receive { num := 0, slot := 0, tid := 7, slots := [], tids := [(5, { x := 1, y := 1, pressure := 1 })] }
      { etype := EV_ABS, ecode := ABS_MT_POSITION_Y, evalue := 200 } = .error () :=
  position_without_contact_raises _ _ rfl (Or.inr rfl) rfl

/-- Claim C2, counterexample: at the initial state neither
`tids[currentTrackingID]` nor `slots[currentSlot]` exists, yet feeding
`ABS_MT_TRACKING_ID` with value `-1` is NOT a no-op: the unguarded
`del self.tids[self.tid]` raises `KeyError`. -/
theorem tracking_lift_raises_ce :
    receive initState { etype := EV_ABS, ecode := ABS_MT_TRACKING_ID, evalue := -1 } =
      .error () := rfl

/-- Claim C2 (corrected): an `ABS_MT_TRACKING_ID` event with value `-1`
removes `tids[currentTrackingID]` and, if present, `slots[currentSlot]`;
the `slots` removal is a genuine guarded no-op when the slot is absent,
but when `currentTrackingID` has no contact the step raises `KeyError`
instead of completing. -/
theorem tracking_lift_behavior (s : MouseState) :
    receive s { etype := EV_ABS, ecode := ABS_MT_TRACKING_ID, evalue := -1 } =
      if acontains s.tid s.tids then
        .ok ({ s with tids := aerase s.tid s.tids,
                      slots := if acontains s.slot s.slots then aerase s.slot s.slots
                               else s.slots },
             noOutput)
      else
        .error () := by
  by_cases h : acontains s.tid s.tids = true
  · by_cases hs : acontains s.slot s.slots = true
    · simp [receive, h, hs, EV_ABS, ABS_MT_TRACKING_ID, ABS_MT_POSITION_X,
            ABS_MT_POSITION_Y, ABS_PRESSURE, ABS_MT_SLOT]
    · have hnone : alookup s.slot s.slots = none := by
        rcases heq : alookup s.slot s.slots with _ | t
        · rfl
        · exact absurd (by simp [acontains, heq]) hs
      simp [receive, h, hs, aerase_absent hnone, EV_ABS, ABS_MT_TRACKING_ID,
            ABS_MT_POSITION_X, ABS_MT_POSITION_Y, ABS_PRESSURE, ABS_MT_SLOT]
  · simp [receive, h, EV_ABS, ABS_MT_TRACKING_ID, ABS_MT_POSITION_X,
          ABS_MT_POSITION_Y, ABS_PRESSURE, ABS_MT_SLOT]

/-- Claim C4: the canonical one-finger report cycle.  From the initial
state, `SLOT=0, TRACKING_ID=5, POSITION_X=100, POSITION_Y=200, SYN_REPORT`
emits exactly one snapshot holding exactly the entry
`(5, 100, 200, 0, 0, 0)`. -/
theorem single_finger_trace :
    process initState
      [{ etype := EV_ABS, ecode := ABS_MT_SLOT, evalue := 0 },
       { etype := EV_ABS, ecode := ABS_MT_TRACKING_ID, evalue := 5 },
       { etype := EV_ABS, ecode := ABS_MT_POSITION_X, evalue := 100 },
       { etype := EV_ABS, ecode := ABS_MT_POSITION_Y, evalue := 200 },
       { etype := EV_SYN, ecode := SYN_REPORT, evalue := 0 }] =
      ([[{ num := 5, x := 100, y := 200, dx := 0, dy := 0, p := 0 }]],
       some { num := 0, slot := 0, tid := 5, slots := [(0, 5)],
              tids := [(5, { x := 100, y := 200, pressure := 0 })] }) := rfl

/-- Claim C6: `ABS_PRESSURE` handling.  Value `0` is ignored outright
(state, contact and pressure field untouched, nothing emitted); a
non-zero value updates the live contact's pressure field; a non-zero
value with no live contact only raises the non-fatal diagnostic
`"tracking ID is already gone"`, leaving the state unchanged. -/
theorem pressure_event_behavior (s : MouseState) (v : Int) :
    receive s { etype := EV_ABS, ecode := ABS_PRESSURE, evalue := 0 } = .ok (s, noOutput) ∧
    (v ≠ 0 → ∀ c, alookup s.tid s.tids = some c →
      receive s { etype := EV_ABS, ecode := ABS_PRESSURE, evalue := v } =
        .ok ({ s with tids := aupdate s.tid { c with pressure := v } s.tids }, noOutput)) ∧
    (v ≠ 0 → alookup s.tid s.tids = none →
      receive s { etype := EV_ABS, ecode := ABS_PRESSURE, evalue := v } =
        .ok (s, { snapshot := none, diag := true })) := by
  refine ⟨?_, ?_, ?_⟩
  · simp [receive, EV_ABS, ABS_PRESSURE, ABS_MT_POSITION_X, ABS_MT_POSITION_Y]
  · intro hv c hc
    simp [receive, hv, hc, EV_ABS, ABS_PRESSURE, ABS_MT_POSITION_X, ABS_MT_POSITION_Y]
  · intro hv hc
    simp [receive, hv, hc, EV_ABS, ABS_PRESSURE, ABS_MT_POSITION_X, ABS_MT_POSITION_Y]

/-- Claim C6, witness: the three pressure behaviors at concrete inputs. -/
theorem pressure_event_behavior_w :
    receive { num := 0, slot := 0, tid := 5, slots := [(0, 5)], tids := [(5, { x := 1, y := 2, pressure := 3 })] }
      { etype := EV_ABS, ecode := ABS_PRESSURE, evalue := 0 } =
      .ok ({ num := 0, slot := 0, tid := 5, slots := [(0, 5)], tids := [(5, { x := 1, y := 2, pressure := 3 })] }, noOutput) ∧
    receive { num := 0, slot := 0, tid := 5, slots := [(0, 5)], tids := [(5, { x := 1, y := 2, pressure := 3 })] }
      { etype := EV_ABS, ecode := ABS_PRESSURE, evalue := 7 } =
      .ok ({ num := 0, slot := 0, tid := 5, slots := [(0, 5)], tids := [(5, { x := 1, y := 2, pressure := 7 })] }, noOutput) ∧
    receive initState { etype := EV_ABS, ecode := ABS_PRESSURE, evalue := 7 } =
      .ok (initState, { snapshot := none, diag := true }) := by
  refine ⟨(pressure_event_behavior _ 7).1, ?_, ?_⟩
  · have h := (pressure_event_behavior
      { num := 0, slot := 0, tid := 5, slots := [(0, 5)], tids := [(5, { x := 1, y := 2, pressure := 3 })] }
      7).2.1 (by decide) { x := 1, y := 2, pressure := 3 } rfl
    simpa [aupdate] using h
  · exact (pressure_event_behavior initState 7).2.2 (by decide) rfl

/-- Claim C7: an event whose `(type, code)` pair is not one of the six
handled pairs leaves the whole state (`slot`, `tid`, `slots`, `tids`)
unchanged and emits nothing. -/
theorem unhandled_event_noop (s : MouseState) (event : RawEvent)
    (h : ¬ handledPair event) :
    receive s event = .ok (s, noOutput) := by
  simp only [handledPair, not_or, not_and_or] at h
  unfold receive
  split_ifs with h1 h2 h3 h4 h5 h6 h7 h8 h9 h10 h11 <;>
    first
      | rfl
      | tauto

/-- Claim C7, witness: `ABS_TILT_X` (an unhandled ABS code) is a no-op. -/
theorem unhandled_event_noop_w :
    receive initState { etype := EV_ABS, ecode := ABS_TILT_X, evalue := 5 } =
      .ok (initState, noOutput) :=
  unhandled_event_noop initState _ (by decide)

/-- Claim C8: feeding `SYN_REPORT` twice with nothing in between emits two
identical snapshots, each the rendering of the current `tids` map, and
leaves the state exactly as it was. -/
theorem double_syn_report (s : MouseState) :
    process s [{ etype := EV_SYN, ecode := SYN_REPORT, evalue := 0 },
               { etype := EV_SYN, ecode := SYN_REPORT, evalue := 0 }] =
      ([snapshotOf s.tids, snapshotOf s.tids], some s) := rfl

/-- Claim C10: a non-sentinel `ABS_MT_TRACKING_ID` whose value is already a
key of `tids` updates the cursor (`tid := value`) and the slot map
(`slots[slot] := value`) but — because creation is `setdefault` — leaves
the `tids` map, and hence the existing contact's `x`, `y` and `pressure`,
entirely unchanged. -/
theorem tracking_id_existing_contact (s : MouseState) (v : Int) (c : Contact)
    (hv : v ≠ -1) (hc : alookup v s.tids = some c) :
    receive s { etype := EV_ABS, ecode := ABS_MT_TRACKING_ID, evalue := v } =
      .ok ({ s with tid := v, slots := aupdate s.slot v s.slots }, noOutput) ∧
    alookup s.slot (aupdate s.slot v s.slots) = some v ∧
    alookup v s.tids = some c := by
  refine ⟨?_, alookup_aupdate_self _ _ _, hc⟩
  have hcontains : acontains v s.tids = true := by simp [acontains, hc]
  simp [receive, hv, setdefault_of_contains _ hcontains, EV_ABS, ABS_MT_TRACKING_ID,
        ABS_MT_POSITION_X, ABS_MT_POSITION_Y, ABS_PRESSURE, ABS_MT_SLOT]

/-- A successful `receive` of anything but a `(SYN, SYN_REPORT)` event
produces no snapshot: the only `update_finger` calls in the source are
inside the `SYN_REPORT` arm. -/
theorem receive_snapshot_none (s : MouseState) (event : RawEvent)
    (s₁ : MouseState) (out : ReceiveOutput)
    (hok : receive s event = .ok (s₁, out))
    (hne : ¬(event.etype = EV_SYN ∧ event.ecode = SYN_REPORT)) :
    out.snapshot = none := by
  unfold receive at hok
  split_ifs at hok with h1 h2 h3 h4 h5 h6 h7 h8 h9 h10 h11 <;>
    first
      | (exact absurd ⟨by assumption, by assumption⟩ hne)
      | (simp only [Except.ok.injEq, Prod.mk.injEq] at hok
         obtain ⟨-, hout⟩ := hok
         subst hout
         rfl)
      | (split at hok <;>
          first
            | (simp only [Except.ok.injEq, Prod.mk.injEq] at hok
               obtain ⟨-, hout⟩ := hok
               subst hout
               rfl)
            | (exact absurd hok (by simp)))

/-- Claim C5: a sequence of events containing no `(SYN, SYN_REPORT)` record
never makes `process` emit a snapshot — including sequences on which the
decoder raises partway through. -/
theorem no_syn_report_no_snapshot (s : MouseState) (events : List RawEvent)
    (h : ∀ event ∈ events, ¬(event.etype = EV_SYN ∧ event.ecode = SYN_REPORT)) :
    (process s events).1 = [] := by
  induction events generalizing s with
  | nil => rfl
  | cons ev rest ih =>
    unfold process
    rcases hok : receive s ev with e | p
    · rfl
    · obtain ⟨s₁, out⟩ := p
      have hs : out.snapshot = none :=
        receive_snapshot_none s ev s₁ out hok (h ev (by simp))
      simp [hs, ih s₁ (fun e he => h e (by simp [he]))]

/-- Claim C5, witness: a report-free sequence (whose second event even
raises `KeyError`) emits nothing. -/
theorem no_syn_report_no_snapshot_w :
    (process initState
      [{ etype := EV_ABS, ecode := ABS_TILT_X, evalue := 5 },
       { etype := EV_ABS, ecode := ABS_MT_TRACKING_ID, evalue := -1 }]).1 = [] :=
  no_syn_report_no_snapshot initState _ (by decide)

/-- Claim C3, counterexample: the consistency invariant is NOT preserved
along every event sequence.  From the initial state, `TRACKING_ID=5`
(binds slot 0 to ID 5), then `SLOT=1` (slot 1 unknown, so the cursor
keeps ID 5), then `TRACKING_ID=-1` removes contact 5 — but only slot 1
is considered for the `slots` removal, so slot 0 still maps to the now
dead tracking ID 5. -/
theorem slots_consistent_not_preserved_ce :
    (process initState
      [{ etype := EV_ABS, ecode := ABS_MT_TRACKING_ID, evalue := 5 },
       { etype := EV_ABS, ecode := ABS_MT_SLOT, evalue := 1 },
       { etype := EV_ABS, ecode := ABS_MT_TRACKING_ID, evalue := -1 }]).2 =
      some { num := 0, slot := 1, tid := 5, slots := [(0, 5)], tids := [] } ∧
    slotsConsistent { num := 0, slot := 1, tid := 5, slots := [(0, 5)], tids := [] } = false :=
  ⟨rfl, rfl⟩

/-- Claim C3 (corrected): one `receive` step preserves the consistency
invariant, except that a `TRACKING_ID = -1` lift may break it when a slot
other than the current one still maps to the current tracking ID (the
contact is deleted but that stale slot entry survives).  Under the extra
hypothesis that only the current slot references the current tracking ID,
every step — lifts included — preserves the invariant. -/
theorem slots_consistent_preserved (s s₁ : MouseState) (event : RawEvent)
    (out : ReceiveOutput)
    (hok : receive s event = .ok (s₁, out))
    (hinv : slotsConsistent s = true)
    (hlift : event.etype = EV_ABS → event.ecode = ABS_MT_TRACKING_ID →
      event.evalue = -1 → ∀ p ∈ s.slots, p.2 = s.tid → p.1 = s.slot) :
    slotsConsistent s₁ = true := by
  simp only [slotsConsistent, List.all_eq_true] at hinv ⊢
  unfold receive at hok
  split_ifs at hok with h1 h2 h3 h4 h5 h6 h7 h8 h9 h10 h11
  · -- ABS_MT_POSITION_X
    split at hok
    · simp only [Except.ok.injEq, Prod.mk.injEq] at hok
      obtain ⟨hs, -⟩ := hok
      subst hs
      exact fun p hp => acontains_aupdate_of _ _ (hinv p hp)
    · exact absurd hok (by simp)
  · -- ABS_MT_POSITION_Y
    split at hok
    · simp only [Except.ok.injEq, Prod.mk.injEq] at hok
      obtain ⟨hs, -⟩ := hok
      subst hs
      exact fun p hp => acontains_aupdate_of _ _ (hinv p hp)
    · exact absurd hok (by simp)
  · -- ABS_PRESSURE, value 0
    simp only [Except.ok.injEq, Prod.mk.injEq] at hok
    obtain ⟨hs, -⟩ := hok
    subst hs
    exact hinv
  · -- ABS_PRESSURE, non-zero value
    split at hok
    · simp only [Except.ok.injEq, Prod.mk.injEq] at hok
      obtain ⟨hs, -⟩ := hok
      subst hs
      exact fun p hp => acontains_aupdate_of _ _ (hinv p hp)
    · simp only [Except.ok.injEq, Prod.mk.injEq] at hok
      obtain ⟨hs, -⟩ := hok
      subst hs
      exact hinv
  · -- ABS_MT_SLOT
    split at hok <;>
      (simp only [Except.ok.injEq, Prod.mk.injEq] at hok
       obtain ⟨hs, -⟩ := hok
       subst hs
       exact hinv)
  · -- ABS_MT_TRACKING_ID, value -1, contact present
    simp only [Except.ok.injEq, Prod.mk.injEq] at hok
    obtain ⟨hs, -⟩ := hok
    subst hs
    intro p hp
    obtain ⟨hpm, hpk⟩ := mem_aerase hp
    have hptid : p.2 ≠ s.tid := fun hq => hpk (hlift h1 h7 h8 p hpm hq)
    exact acontains_aerase_of_ne hptid (hinv p hpm)
  · -- ABS_MT_TRACKING_ID, new or existing non-sentinel value
    simp only [Except.ok.injEq, Prod.mk.injEq] at hok
    obtain ⟨hs, -⟩ := hok
    subst hs
    intro p hp
    rcases mem_aupdate hp with hpv | hpm
    · subst hpv
      exact acontains_setdefault_self _ _ _
    · exact acontains_setdefault_of _ _ (hinv p hpm)
  · -- unknown ABS code
    simp only [Except.ok.injEq, Prod.mk.injEq] at hok
    obtain ⟨hs, -⟩ := hok
    subst hs
    exact hinv
  · -- SYN_REPORT
    simp only [Except.ok.injEq, Prod.mk.injEq] at hok
    obtain ⟨hs, -⟩ := hok
    subst hs
    exact hinv
  · -- SYN, other code
    simp only [Except.ok.injEq, Prod.mk.injEq] at hok
    obtain ⟨hs, -⟩ := hok
    subst hs
    exact hinv
  · -- other event type
    simp only [Except.ok.injEq, Prod.mk.injEq] at hok
    obtain ⟨hs, -⟩ := hok
    subst hs
    exact hinv

/-- Claim C3, witness: a well-addressed lift (the current slot is the only
one referencing the current tracking ID) preserves consistency. -/
theorem slots_consistent_preserved_w :
    slotsConsistent { num := 0, slot := 0, tid := 5, slots := [], tids := [] } = true :=
  slots_consistent_preserved
    { num := 0, slot := 0, tid := 5, slots := [(0, 5)], tids := [(5, { x := 1, y := 2, pressure := 3 })] }
    { num := 0, slot := 0, tid := 5, slots := [], tids := [] }
    { etype := EV_ABS, ecode := ABS_MT_TRACKING_ID, evalue := -1 }
    noOutput rfl rfl (by decide)

/-- Claim C9, counterexample to the claim as stated: it quantifies over
every state in which slot 0 holds tracking ID 1, which includes states
where tracking ID 9 is already a live contact (here at slot 1 with data
`(7, 8, 9)`).  Then `TRACKING_ID=9` is a `setdefault` no-op: the
"new" contact for ID 9 is NOT initialized to `(0, 0, 0)`. -/
theorem slot_reuse_ce :
    process { num := 0, slot := 0, tid := 1, slots := [(0, 1), (1, 9)],
              tids := [(1, { x := 10, y := 20, pressure := 30 }), (9, { x := 7, y := 8, pressure := 9 })] }
      [{ etype := EV_ABS, ecode := ABS_MT_TRACKING_ID, evalue := -1 },
       { etype := EV_ABS, ecode := ABS_MT_SLOT, evalue := 0 },
       { etype := EV_ABS, ecode := ABS_MT_TRACKING_ID, evalue := 9 }] =
      ([], some { num := 0, slot := 0, tid := 9, slots := [(1, 9), (0, 9)],
                  tids := [(9, { x := 7, y := 8, pressure := 9 })] }) ∧
    ({ x := 7, y := 8, pressure := 9 } : Contact) ≠ { x := 0, y := 0, pressure := 0 } :=
  ⟨rfl, by decide⟩

/-- Claim C9 (corrected): lifting the contact of slot 0 (tracking ID 1,
current cursor) and re-establishing slot 0 with tracking ID 9 — provided
ID 9 has no live contact already — yields a fresh contact `(0, 0, 0)`
for ID 9 carrying nothing over from ID 1 (whose entry is gone), and
subsequent position updates (`ABS_MT_POSITION_X`, `ABS_MT_POSITION_Y`)
and pressure updates (non-zero `ABS_PRESSURE`) are routed to ID 9 alone,
leaving every other key of `tids` untouched. -/
theorem slot_reuse_fresh (s : MouseState) (c₁ : Contact)
    (hslot : s.slot = 0) (htid : s.tid = 1)
    ( _hmap : alookup 0 s.slots = some 1)
    (hc1 : alookup 1 s.tids = some c₁)
    (h9 : alookup 9 s.tids = none) :
    process s [{ etype := EV_ABS, ecode := ABS_MT_TRACKING_ID, evalue := -1 },
               { etype := EV_ABS, ecode := ABS_MT_SLOT, evalue := 0 },
               { etype := EV_ABS, ecode := ABS_MT_TRACKING_ID, evalue := 9 }] =
      ([], some (reuseResult s)) ∧
    (reuseResult s).tid = 9 ∧
    alookup 9 (reuseResult s).tids = some { x := 0, y := 0, pressure := 0 } ∧
    alookup 1 (reuseResult s).tids = none ∧
    alookup 0 (reuseResult s).slots = some 9 ∧
    (∀ x₁, receive (reuseResult s) { etype := EV_ABS, ecode := ABS_MT_POSITION_X, evalue := x₁ } =
        .ok ({ reuseResult s with
               tids := aupdate 9 { x := x₁, y := 0, pressure := 0 } (reuseResult s).tids },
             noOutput) ∧
      ∀ k, k ≠ 9 → alookup k (aupdate 9 { x := x₁, y := 0, pressure := 0 } (reuseResult s).tids) =
        alookup k (reuseResult s).tids) ∧
    (∀ y₁, receive (reuseResult s) { etype := EV_ABS, ecode := ABS_MT_POSITION_Y, evalue := y₁ } =
        .ok ({ reuseResult s with
               tids := aupdate 9 { x := 0, y := y₁, pressure := 0 } (reuseResult s).tids },
             noOutput) ∧
      ∀ k, k ≠ 9 → alookup k (aupdate 9 { x := 0, y := y₁, pressure := 0 } (reuseResult s).tids) =
        alookup k (reuseResult s).tids) ∧
    (∀ v, v ≠ 0 → receive (reuseResult s) { etype := EV_ABS, ecode := ABS_PRESSURE, evalue := v } =
        .ok ({ reuseResult s with
               tids := aupdate 9 { x := 0, y := 0, pressure := v } (reuseResult s).tids },
             noOutput) ∧
      ∀ k, k ≠ 9 → alookup k (aupdate 9 { x := 0, y := 0, pressure := v } (reuseResult s).tids) =
        alookup k (reuseResult s).tids) := by
  have hcont1 : acontains (1 : Int) s.tids = true := by simp [acontains, hc1]
  have h9e : alookup 9 (aerase 1 s.tids) = none := by
    rw [alookup_aerase_ne (by decide), h9]
  have hsd : setdefault 9 { x := 0, y := 0, pressure := 0 } (aerase 1 s.tids) =
      aupdate 9 { x := 0, y := 0, pressure := 0 } (aerase 1 s.tids) := by
    simp [setdefault, acontains, h9e]
  have r1 : receive s { etype := EV_ABS, ecode := ABS_MT_TRACKING_ID, evalue := -1 } =
      .ok ({ s with tids := aerase 1 s.tids, slots := aerase 0 s.slots }, noOutput) := by
    simp [receive, hcont1, htid, hslot, EV_ABS, ABS_MT_TRACKING_ID,
          ABS_MT_POSITION_X, ABS_MT_POSITION_Y, ABS_PRESSURE, ABS_MT_SLOT]
  have r2 : receive { s with tids := aerase 1 s.tids, slots := aerase 0 s.slots }
        { etype := EV_ABS, ecode := ABS_MT_SLOT, evalue := 0 } =
      .ok ({ s with tids := aerase 1 s.tids, slots := aerase 0 s.slots, slot := 0 }, noOutput) := by
    simp [receive, alookup_aerase_self, EV_ABS, ABS_MT_SLOT,
          ABS_MT_POSITION_X, ABS_MT_POSITION_Y, ABS_PRESSURE]
  have r3 : receive { s with tids := aerase 1 s.tids, slots := aerase 0 s.slots, slot := 0 }
        { etype := EV_ABS, ecode := ABS_MT_TRACKING_ID, evalue := 9 } =
      .ok (reuseResult s, noOutput) := by
    simp [receive, reuseResult, hsd, EV_ABS, ABS_MT_TRACKING_ID,
          ABS_MT_POSITION_X, ABS_MT_POSITION_Y, ABS_PRESSURE, ABS_MT_SLOT]
  refine ⟨?_, rfl, ?_, ?_, ?_, ?_, ?_, ?_⟩
  · simp [process, r1, r2, r3, noOutput]
  · simp [reuseResult, alookup_aupdate_self]
  · simp [reuseResult, alookup_aupdate_ne (by decide : (1 : Int) ≠ 9), alookup_aerase_self]
  · simp [reuseResult, alookup_aupdate_self]
  · intro x₁
    constructor
    · simp [receive, reuseResult, alookup_aupdate_self, EV_ABS,
            ABS_MT_POSITION_X]
    · intro k hk
      exact alookup_aupdate_ne hk _ _
  · intro y₁
    constructor
    · simp [receive, reuseResult, alookup_aupdate_self, EV_ABS,
            ABS_MT_POSITION_X, ABS_MT_POSITION_Y]
    · intro k hk
      exact alookup_aupdate_ne hk _ _
  · intro v hv
    constructor
    · simp [receive, reuseResult, alookup_aupdate_self, hv, EV_ABS,
            ABS_MT_POSITION_X, ABS_MT_POSITION_Y, ABS_PRESSURE]
    · intro k hk
      exact alookup_aupdate_ne hk _ _

/-- Claim C9, witness: the slot-reuse scenario from the concrete state
`slot 0 ↦ tracking ID 1 ↦ contact (10, 20, 30)`, followed by concrete
X, Y and pressure updates routed to the fresh contact 9. -/
theorem slot_reuse_fresh_w :
    process { num := 0, slot := 0, tid := 1, slots := [(0, 1)],
              tids := [(1, { x := 10, y := 20, pressure := 30 })] }
      [{ etype := EV_ABS, ecode := ABS_MT_TRACKING_ID, evalue := -1 },
       { etype := EV_ABS, ecode := ABS_MT_SLOT, evalue := 0 },
       { etype := EV_ABS, ecode := ABS_MT_TRACKING_ID, evalue := 9 }] =
      ([], some (reuseResult { num := 0, slot := 0, tid := 1, slots := [(0, 1)],
                               tids := [(1, { x := 10, y := 20, pressure := 30 })] })) ∧
    alookup 9 (reuseResult { num := 0, slot := 0, tid := 1, slots := [(0, 1)],
                             tids := [(1, { x := 10, y := 20, pressure := 30 })] }).tids =
      some { x := 0, y := 0, pressure := 0 } ∧
    alookup 1 (reuseResult { num := 0, slot := 0, tid := 1, slots := [(0, 1)],
                             tids := [(1, { x := 10, y := 20, pressure := 30 })] }).tids = none ∧
    receive (reuseResult { num := 0, slot := 0, tid := 1, slots := [(0, 1)],
                           tids := [(1, { x := 10, y := 20, pressure := 30 })] })
      { etype := EV_ABS, ecode := ABS_MT_POSITION_X, evalue := 33 } =
      .ok ({ reuseResult { num := 0, slot := 0, tid := 1, slots := [(0, 1)],
                           tids := [(1, { x := 10, y := 20, pressure := 30 })] } with
             tids := aupdate 9 { x := 33, y := 0, pressure := 0 }
               (reuseResult { num := 0, slot := 0, tid := 1, slots := [(0, 1)],
                              tids := [(1, { x := 10, y := 20, pressure := 30 })] }).tids },
           noOutput) ∧
    receive (reuseResult { num := 0, slot := 0, tid := 1, slots := [(0, 1)],
                           tids := [(1, { x := 10, y := 20, pressure := 30 })] })
      { etype := EV_ABS, ecode := ABS_MT_POSITION_Y, evalue := 55 } =
      .ok ({ reuseResult { num := 0, slot := 0, tid := 1, slots := [(0, 1)],
                           tids := [(1, { x := 10, y := 20, pressure := 30 })] } with
             tids := aupdate 9 { x := 0, y := 55, pressure := 0 }
               (reuseResult { num := 0, slot := 0, tid := 1, slots := [(0, 1)],
                              tids := [(1, { x := 10, y := 20, pressure := 30 })] }).tids },
           noOutput) ∧
    receive (reuseResult { num := 0, slot := 0, tid := 1, slots := [(0, 1)],
                           tids := [(1, { x := 10, y := 20, pressure := 30 })] })
      { etype := EV_ABS, ecode := ABS_PRESSURE, evalue := 44 } =
      .ok ({ reuseResult { num := 0, slot := 0, tid := 1, slots := [(0, 1)],
                           tids := [(1, { x := 10, y := 20, pressure := 30 })] } with
             tids := aupdate 9 { x := 0, y := 0, pressure := 44 }
               (reuseResult { num := 0, slot := 0, tid := 1, slots := [(0, 1)],
                              tids := [(1, { x := 10, y := 20, pressure := 30 })] }).tids },
           noOutput) ∧
    alookup 1 (aupdate 9 { x := 0, y := 0, pressure := 44 }
        (reuseResult { num := 0, slot := 0, tid := 1, slots := [(0, 1)],
                       tids := [(1, { x := 10, y := 20, pressure := 30 })] }).tids) =
      alookup 1 (reuseResult { num := 0, slot := 0, tid := 1, slots := [(0, 1)],
                               tids := [(1, { x := 10, y := 20, pressure := 30 })] }).tids := by
  have h := slot_reuse_fresh
    { num := 0, slot := 0, tid := 1, slots := [(0, 1)], tids := [(1, { x := 10, y := 20, pressure := 30 })] }
    { x := 10, y := 20, pressure := 30 } rfl rfl rfl rfl rfl
  exact ⟨h.1, h.2.2.1, h.2.2.2.1,
         (h.2.2.2.2.2.1 33).1,
         (h.2.2.2.2.2.2.1 55).1,
         (h.2.2.2.2.2.2.2 44 (by decide)).1,
         (h.2.2.2.2.2.2.2 44 (by decide)).2 1 (by decide)⟩

/-- Claim C10, witness at a concrete state holding contact 7. -/
theorem tracking_id_existing_contact_w :
    receive { num := 0, slot := 2, tid := 1, slots := [(2, 1)], tids := [(7, { x := 4, y := 5, pressure := 6 })] }
      { etype := EV_ABS, ecode := ABS_MT_TRACKING_ID, evalue := 7 } =
      .ok ({ num := 0, slot := 2, tid := 7, slots := [(2, 7)], tids := [(7, { x := 4, y := 5, pressure := 6 })] },
           noOutput) ∧
    alookup 2 [((2 : Int), (7 : Int))] = some 7 := by
  have h := tracking_id_existing_contact
    { num := 0, slot := 2, tid := 1, slots := [(2, 1)], tids := [(7, { x := 4, y := 5, pressure := 6 })] }
    7 { x := 4, y := 5, pressure := 6 } (by decide) rfl
  exact ⟨by simpa [aupdate] using h.1, by simpa [aupdate] using h.2.1⟩

end FingerViewer
